import Mathlib

/-!
Verification of the dukaaon-admin-console image-acquisition scripts.

This file shallowly embeds the pure logic of
`scripts/image_scraper.py` (class `ProductImageScraper`) and
`product_image_downloader.py` (class `ProductImageDownloader`):
quality scoring, URL deduplication, stable selection sort, the
orchestrating `scrape_product_images`, the retrying `download_image`
(with an explicit file-system event trace), and the company-website /
fallback-URL search. Network calls, PIL decoding and wall-clock
values are modelled as explicit oracle parameters; Python floats are
modelled as rationals (all constants involved are exactly
representable and no float rounding affects any comparison made by
the code).
-/

/-- Python `str.lower()`, modelled character-wise (all strings the
scripts lower are ASCII: PIL format names and brand keys). -/
def pyLower (s : String) : String := String.mk (s.data.map Char.toLower)

namespace ImageScraper

/-- `ImageResult` dataclass of `scripts/image_scraper.py`. -/
structure ImageResult where
  url : String
  source : String
  quality_score : ℚ
  width : ℕ := 0
  height : ℕ := 0
  file_size : ℕ := 0
  format : String := ""
  error : Option String := none
deriving Repr, DecidableEq

/-- `ScrapeResult` dataclass of `scripts/image_scraper.py`. -/
structure ScrapeResult where
  success : Bool
  product_name : String
  brand_name : String
  images : List ImageResult
  best_image : Option ImageResult
  local_path : Option String
  sources_searched : List String
  error : Option String := none
deriving Repr, DecidableEq

/-- `ProductImageScraper.MIN_SOURCES`. -/
def MIN_SOURCES : ℕ := 2

/-- The `format_scores` dictionary lookup with default `0.05`
(`format_scores.get(format.lower(), 0.05)`). -/
def format_scores_get (format : String) : ℚ :=
  let f := pyLower format
  if f = "jpeg" then 2/10
  else if f = "jpg" then 2/10
  else if f = "png" then 18/100
  else if f = "webp" then 15/100
  else if f = "gif" then 5/100
  else 5/100

/-- `ProductImageScraper._calculate_quality_score`.  Width, height and
file size are machine ints in Python; they originate from PIL image
dimensions and `len(content)` so they are nonnegative and far below
any overflow boundary, hence modelled as `ℕ`.  The score is a Python
float built from exactly representable constants; modelled as `ℚ`. -/
def calculate_quality_score (width height file_size : ℕ) (format : String) : ℚ :=
  let min_dim := min width height
  let max_dim := max width height
  let resolution : ℚ :=
    if 400 ≤ min_dim ∧ max_dim ≤ 1200 then 4/10
    else if 200 ≤ min_dim ∧ max_dim ≤ 2000 then 3/10
    else if 100 ≤ min_dim then 15/100
    else 0
  let aspect : ℚ :=
    if 0 < width ∧ 0 < height then
      let aspect_ratio : ℚ := (max_dim : ℚ) / (min_dim : ℚ)
      if aspect_ratio ≤ 15/10 then 2/10
      else if aspect_ratio ≤ 2 then 1/10
      else 0
    else 0
  let size_score : ℚ :=
    if 0 < file_size then
      if 10000 ≤ file_size ∧ file_size ≤ 500000 then 2/10
      else if 5000 ≤ file_size ∧ file_size ≤ 1000000 then 1/10
      else 0
    else 0
  min (resolution + aspect + size_score + format_scores_get format) 1

/-- Python truthiness of a string (`if r.url`). -/
def truthyStr (s : String) : Bool := !s.isEmpty

/-- Python falsiness of an optional string (`not r.error`): `None` and
the empty string are falsy. -/
def falsyErr : Option String → Bool
  | none => true
  | some s => s.isEmpty

/-- The list comprehension `[r for r in results if r.url and not r.error]`. -/
def valid_results (l : List ImageResult) : List ImageResult :=
  l.filter (fun r => truthyStr r.url && falsyErr r.error)

/-- First-occurrence deduplication keyed by a string, the common code
pattern `seen = set(); [x for x in l if x not in seen ...]` and
`list(dict.fromkeys(l))`.  The `seen` set is modelled as a list used
only for membership. -/
def dedup_by_aux {α : Type} (key : α → String) (seen : List String) :
    List α → List α
  | [] => []
  | r :: rest =>
    if key r ∈ seen then dedup_by_aux key seen rest
    else r :: dedup_by_aux key (key r :: seen) rest

/-- Lines 405-411 of `scrape_product_images`: drop every result whose
URL was already seen, keeping first occurrences in order. -/
def unique_by_url (l : List ImageResult) : List ImageResult :=
  dedup_by_aux (fun r => r.url) [] l

/-- The in-place mutation of one candidate by the scoring loop
(lines 427-433): fields are set from `_get_image_info(result.url)` and
the score from `_calculate_quality_score`.  The network fetch and PIL
decode of `_get_image_info` are an oracle `info`; a failed fetch is an
oracle answering `(0, 0, 0, "")`, exactly the function's error
return. -/
def score_candidate (info : String → ℕ × ℕ × ℕ × String) (r : ImageResult) :
    ImageResult :=
  match info r.url with
  | (width, height, file_size, format) =>
    { r with width := width, height := height, file_size := file_size,
             format := format,
             quality_score := calculate_quality_score width height file_size format }

/-- Comparison used to model `candidates.sort(key=lambda x:
x.quality_score, reverse=True)` on index-tagged candidates.  Python's
sort is stable, so on a list tagged with original positions it is
extensionally THE sort by the total order: score descending, original
position (discovery order) ascending. -/
def selRel (a b : ℕ × ImageResult) : Prop :=
  b.2.quality_score < a.2.quality_score ∨
    (a.2.quality_score = b.2.quality_score ∧ a.1 ≤ b.1)

instance : DecidableRel selRel := fun _ _ => by
  unfold selRel; infer_instance

instance : IsTotal (ℕ × ImageResult) selRel := by
  constructor
  intro a b
  rcases lt_trichotomy a.2.quality_score b.2.quality_score with h | h | h
  · exact Or.inr (Or.inl h)
  · rcases Nat.le_total a.1 b.1 with h1 | h1
    · exact Or.inl (Or.inr ⟨h, h1⟩)
    · exact Or.inr (Or.inr ⟨h.symm, h1⟩)
  · exact Or.inl (Or.inl h)

instance : IsTrans (ℕ × ImageResult) selRel := by
  constructor
  rintro a b c (hab | ⟨hab, iab⟩) (hbc | ⟨hbc, ibc⟩)
  · exact Or.inl (lt_trans hbc hab)
  · exact Or.inl (hbc ▸ hab)
  · exact Or.inl (hab ▸ hbc)
  · exact Or.inr ⟨hab.trans hbc, le_trans iab ibc⟩

/-- The sorted, index-tagged candidate list. -/
def ranked_enum (l : List ImageResult) : List (ℕ × ImageResult) :=
  (l.enum).insertionSort selRel

/-- `candidates.sort(key=lambda x: x.quality_score, reverse=True)`
(line 436): stable descending sort by quality score. -/
def select_sort (l : List ImageResult) : List ImageResult :=
  (ranked_enum l).map Prod.snd

/-- `ProductImageScraper.scrape_product_images`.  The three network
searches are oracles delivering the `ImageResult` lists the scraping
helpers would return; `info` is the `_get_image_info` oracle and
`downloadFn` the `download_image` call (already closed over product
naming). -/
def scrape_product_images
    (google_results bing_results ecommerce_results : List ImageResult)
    (info : String → ℕ × ℕ × ℕ × String)
    (downloadFn : String → Option String)
    (product_name brand_name : String)
    (download : Bool) : ScrapeResult :=
  let valid_google := valid_results google_results
  let valid_bing := valid_results bing_results
  let valid_ecommerce := valid_results ecommerce_results
  let all_results := valid_google ++ valid_bing ++ valid_ecommerce
  let sources_searched : List String :=
    ["google", "bing"] ++ (if valid_ecommerce.isEmpty then [] else ["ecommerce"])
  if sources_searched.length < MIN_SOURCES then
    { success := false, product_name := product_name, brand_name := brand_name,
      images := [], best_image := none, local_path := none,
      sources_searched := sources_searched,
      error := some "Failed to search minimum 2 sources" }
  else
    let unique_results := unique_by_url all_results
    if unique_results.isEmpty then
      { success := false, product_name := product_name, brand_name := brand_name,
        images := [], best_image := none, local_path := none,
        sources_searched := sources_searched,
        error := some "No images found from any source" }
    else
      let candidates := (unique_results.take 15).map (score_candidate info)
      let ranked := select_sort candidates
      let best_image := ranked.head?
      let local_path : Option String :=
        match download, best_image with
        | true, some b => if truthyStr b.url then downloadFn b.url else none
        | _, _ => none
      { success := true, product_name := product_name, brand_name := brand_name,
        images := ranked, best_image := best_image, local_path := local_path,
        sources_searched := sources_searched, error := none }

/-- One attempt of `self.session.get(url, ...)` plus PIL validation in
`download_image`: either the request raises, or it yields a body of
`size` bytes that PIL either verifies as an image of format `format`
or rejects (`valid = false`). -/
inductive FetchOutcome where
  | raise
  | ok (size : ℕ) (valid : Bool) (format : String)
deriving Repr, DecidableEq

/-- One observable file-system mutation performed by `download_image`:
`open(filepath,'wb').write(content)` or `os.remove(filepath)`. -/
inductive FsEvent where
  | write (path : String) (size : ℕ)
  | remove (path : String)
deriving Repr, DecidableEq

/-- `re.sub(r'[^a-zA-Z0-9\s]', '', product_name).lower().replace(' ', '_')`
(line 498). -/
def clean_name_underscore (product_name : String) : String :=
  String.mk (((product_name.data.filter (fun c => c.isAlphanum || c.isWhitespace)).map
    Char.toLower).map (fun c => if c = ' ' then '_' else c))

/-- Filename generation of `download_image` (lines 497-506);
`timestamp` abstracts `int(time.time() * 1000)` and `os.path.join`
inserts a path separator. -/
def download_filename (output_dir product_name : String) (product_id : Option String)
    (timestamp : ℕ) (img_format : String) : String :=
  let clean_name := clean_name_underscore product_name
  match product_id with
  | some pid => output_dir ++ "/" ++ clean_name ++ "_" ++ pid ++ "." ++ img_format
  | none => output_dir ++ "/" ++ clean_name ++ "_" ++ toString timestamp ++ "." ++ img_format

/-- The retry loop of `download_image` (lines 479-528), producing the
trace of file-system events alongside the returned path.  `attempt` is
the current loop index and the second argument the number of attempts
left; a failed attempt with none left falls through to `return None`
(the code's `if attempt < max_retries - 1` guard).  `pathFor` builds
the file path from the image format (`f"{clean_name}_....{img_format}"`).
On a valid image the body is written to the target path, then the size
check removes it again when it is below 1024 bytes. -/
def download_loop (fetch : ℕ → FetchOutcome) (pathFor : String → String) :
    ℕ → ℕ → List FsEvent × Option String
  | _, 0 => ([], none)
  | attempt, remaining + 1 =>
    match fetch attempt with
    | FetchOutcome.raise => download_loop fetch pathFor (attempt + 1) remaining
    | FetchOutcome.ok size valid format =>
      if valid then
        let img_format := if format.isEmpty then "jpg" else pyLower format
        let filepath := pathFor img_format
        if size < 1024 then
          let next := download_loop fetch pathFor (attempt + 1) remaining
          (FsEvent.write filepath size :: FsEvent.remove filepath :: next.1, next.2)
        else
          ([FsEvent.write filepath size], some filepath)
      else download_loop fetch pathFor (attempt + 1) remaining

/-- `ProductImageScraper.download_image` with `max_retries = 3`. -/
def download_image (fetch : ℕ → FetchOutcome) (pathFor : String → String)
    (max_retries : ℕ) : List FsEvent × Option String :=
  download_loop fetch pathFor 0 max_retries

/-- Size of the file at `path` after replaying a trace of file-system
events on an initially empty directory (`none` = no file). -/
def replay_size (events : List FsEvent) (path : String) : Option ℕ :=
  events.foldl (fun acc e =>
    match e with
    | FsEvent.write p size => if p = path then some size else acc
    | FsEvent.remove p => if p = path then none else acc) none

/-! ### Selection lemmas (C5) -/

lemma ranked_enum_sorted (l : List ImageResult) :
    (ranked_enum l).Sorted selRel :=
  List.sorted_insertionSort selRel l.enum

lemma ranked_enum_perm (l : List ImageResult) :
    List.Perm (ranked_enum l) l.enum :=
  List.perm_insertionSort selRel l.enum

lemma select_sort_perm (l : List ImageResult) :
    List.Perm (select_sort l) l := by
  have h := (ranked_enum_perm l).map Prod.snd
  rw [List.enum_map_snd] at h
  exact h

lemma ranked_enum_fst_pairwise_ne (l : List ImageResult) :
    (ranked_enum l).Pairwise (fun a b => a.1 ≠ b.1) := by
  have hnodup : ((ranked_enum l).map Prod.fst).Nodup := by
    refine (((ranked_enum_perm l).map Prod.fst).nodup_iff).mpr ?_
    exact List.nodup_enum_map_fst l
  have hpw : ((ranked_enum l).map Prod.fst).Pairwise (fun a b => a ≠ b) := hnodup
  exact (List.pairwise_map).mp hpw

/-- C5: selection is the stable descending sort by score: the chosen
candidate (head of the ranked sequence) is an element of the input
with the maximum score, and for any two ranked positions with equal
score the earlier one carries the strictly smaller discovery order
(position in the pre-sort, merge-ordered list). -/
theorem selection_head_max_and_stable_ties (l : List ImageResult) :
    (∀ b, (select_sort l).head? = some b →
      b ∈ l ∧ ∀ x ∈ l, x.quality_score ≤ b.quality_score)
    ∧ (∀ m n : ℕ, ∀ hmn : m < n, ∀ hn : n < (ranked_enum l).length,
        ((ranked_enum l).get ⟨m, Nat.lt_trans hmn hn⟩).2.quality_score =
          ((ranked_enum l).get ⟨n, hn⟩).2.quality_score →
        ((ranked_enum l).get ⟨m, Nat.lt_trans hmn hn⟩).1 <
          ((ranked_enum l).get ⟨n, hn⟩).1) := by
  constructor
  · intro b hb
    have hperm := select_sort_perm l
    cases hre : ranked_enum l with
    | nil =>
      rw [select_sort, hre] at hb
      simp at hb
    | cons q s =>
      have hb2 : b = q.2 := by
        rw [select_sort, hre] at hb
        simp only [List.map_cons, List.head?_cons, Option.some.injEq] at hb
        exact hb.symm
      have hbmem : b ∈ select_sort l := by
        rw [select_sort, hre, hb2]
        simp
      have hsorted := ranked_enum_sorted l
      rw [hre, List.sorted_cons] at hsorted
      refine ⟨hperm.mem_iff.mp hbmem, ?_⟩
      intro x hx
      obtain ⟨p, hp, hpx⟩ := List.mem_map.mp (hperm.mem_iff.mpr hx)
      rw [hre] at hp
      rcases List.mem_cons.mp hp with rfl | hp
      · rw [hb2, hpx]
      · rcases hsorted.1 p hp with hlt | ⟨heq, _⟩
        · rw [← hpx, hb2]
          exact le_of_lt hlt
        · rw [← hpx, hb2, heq]
  · intro m n hmn hn heq
    have hrel := (ranked_enum_sorted l).rel_get_of_lt
      (show (⟨m, Nat.lt_trans hmn hn⟩ : Fin (ranked_enum l).length) < ⟨n, hn⟩ from hmn)
    have hne : ((ranked_enum l).get ⟨m, Nat.lt_trans hmn hn⟩).1 ≠
        ((ranked_enum l).get ⟨n, hn⟩).1 := by
      have hpw : (ranked_enum l).Sorted (fun a b => a.1 ≠ b.1) :=
        ranked_enum_fst_pairwise_ne l
      exact hpw.rel_get_of_lt
        (show (⟨m, Nat.lt_trans hmn hn⟩ : Fin (ranked_enum l).length) < ⟨n, hn⟩ from hmn)
    rcases hrel with hlt | ⟨_, hle⟩
    · rw [heq] at hlt
      exact absurd hlt (lt_irrefl _)
    · exact lt_of_le_of_ne hle hne

/-- Concrete equal-score candidates used to witness the tie-break. -/
def tieA : ImageResult := { url := "a", source := "google", quality_score := 1/2 }

def tieB : ImageResult := { url := "b", source := "bing", quality_score := 1/2 }

lemma ranked_enum_tie_eval : ranked_enum [tieA, tieB] = [(0, tieA), (1, tieB)] := by
  have hsel : selRel (0, tieA) (1, tieB) :=
    Or.inr ⟨by norm_num [tieA, tieB], by norm_num⟩
  simp [ranked_enum, List.insertionSort, List.orderedInsert, List.enum,
    List.enumFrom, hsel]

lemma ranked_enum_tie_len : 1 < (ranked_enum [tieA, tieB]).length := by
  rw [ranked_enum_tie_eval]
  norm_num

theorem selection_ties_witness :
    (0 : ℕ) < 1 ∧ 1 < (ranked_enum [tieA, tieB]).length ∧
    ((ranked_enum [tieA, tieB]).get ⟨0, Nat.lt_trans Nat.zero_lt_one ranked_enum_tie_len⟩).1 <
      ((ranked_enum [tieA, tieB]).get ⟨1, ranked_enum_tie_len⟩).1 :=
  ⟨Nat.zero_lt_one, ranked_enum_tie_len,
    (selection_head_max_and_stable_ties [tieA, tieB]).2 0 1 Nat.zero_lt_one
      ranked_enum_tie_len
      (by rw [List.get_of_eq ranked_enum_tie_eval, List.get_of_eq ranked_enum_tie_eval]
          norm_num [tieA, tieB])⟩

end ImageScraper

namespace Downloader

/-- `needle` is a leading segment of `hay` (helper for Python's `in`
on strings). -/
def listStarts : List Char → List Char → Bool
  | [], _ => true
  | _ :: _, [] => false
  | a :: as, b :: bs => a = b && listStarts as bs

/-- `needle` occurs contiguously in `hay`. -/
def listSub (needle : List Char) : List Char → Bool
  | [] => needle.isEmpty
  | c :: rest => listStarts needle (c :: rest) || listSub needle rest

/-- Python's substring test `needle in hay`. -/
def strIn (needle hay : String) : Bool := listSub needle.data hay.data

/-- One result row built by
`ProductImageDownloader.search_product_images`:
`{'url': ..., 'source': ..., 'confidence': ...}`. -/
structure SearchEntry where
  url : String
  source : String
  confidence : ℚ
deriving Repr, DecidableEq

/-- The `company_domains` dictionary of `ProductImageDownloader`, in
insertion order (Python dicts iterate in insertion order). -/
def company_domains : List (String × String) :=
  [("unilever", "unilever.com"), ("hindustan unilever", "hul.co.in"),
   ("hul", "hul.co.in"), ("surf", "surf.co.in"), ("dove", "dove.com"),
   ("lifebuoy", "lifebuoy.co.in"), ("ponds", "ponds.com"),
   ("brooke bond", "brookebond.co.in"), ("rin", "rin.co.in"),
   ("wheel", "wheel.co.in"), ("nestle", "nestle.com"), ("maggi", "maggi.in"),
   ("nescafe", "nescafe.com"), ("kitkat", "kitkat.com"),
   ("coca cola", "coca-cola.com"), ("pepsi", "pepsi.com"),
   ("britannia", "britannia.co.in"), ("parle", "parle.com")]

/-- The domain lookup loop in `search_company_websites`: first brand
key that is a substring of the search term. -/
def find_company_domain (search_term : String) : Option String :=
  (company_domains.find? (fun p => strIn p.1 search_term)).map Prod.snd

/-- `ProductImageDownloader._is_valid_image_url` (this variant has no
exclusion patterns, unlike the scraper's). -/
def is_valid_image_url (url : String) : Bool :=
  if url.isEmpty then false
  else
    let u := pyLower url
    let has_extension := strIn ".jpg" u || strIn ".jpeg" u || strIn ".png" u ||
      strIn ".webp" u || strIn ".gif" u || strIn ".bmp" u
    let looks_like_image := strIn "image" u || strIn "photo" u ||
      strIn "picture" u || strIn "/img/" u || strIn "/images/" u ||
      strIn "thumbnail" u
    has_extension || looks_like_image

/-- `re.sub(r'[^a-zA-Z0-9\s]', '', s).lower().replace(' ', '-')`
(lines 277-278). -/
def clean_dash (s : String) : String :=
  String.mk (((s.data.filter (fun c => c.isAlphanum || c.isWhitespace)).map
    Char.toLower).map (fun c => if c = ' ' then '-' else c))

/-- `list(dict.fromkeys(urls))`: order-preserving string dedup. -/
def dedup_strings (l : List String) : List String :=
  ImageScraper.dedup_by_aux (fun s => s) [] l

/-- One iteration body of `search_company_websites` (lines 234-305).
`web` is the oracle for the company-site search request: `none` when
the request raised or returned non-200, otherwise the `src` attributes
scraped from the result page.  `quoteFn` abstracts `urllib.parse.quote`
and `hashFn` the (per-process) `hash` builtin; both only build opaque
URL text.  When no image URL was found the three generic placeholder
URLs are appended as fallback (lines 291-298). -/
def company_attempt (web : Option (List String))
    (quoteFn : String → String) (hashFn : String → ℕ)
    (product_name brand_name : String) : List String :=
  let search_term := pyLower (if brand_name.isEmpty then product_name else brand_name)
  let company_domain := find_company_domain search_term
  let image_urls : List String :=
    match company_domain with
    | some domain =>
      let fromSearch : List String :=
        match web with
        | some srcs =>
          (srcs.filter is_valid_image_url).map (fun src =>
            if src.startsWith "http" then src
            else "https://" ++ domain ++ (if src.startsWith "/" then "" else "/") ++ src)
        | none => []
      if fromSearch.isEmpty then
        let clean_product := clean_dash product_name
        let clean_brand := clean_dash brand_name
        [ "https://" ++ domain ++ "/images/products/" ++ clean_product ++ ".jpg",
          "https://" ++ domain ++ "/assets/images/" ++ clean_brand ++ "-" ++ clean_product ++ ".jpg",
          "https://" ++ domain ++ "/media/catalog/product/" ++ clean_product ++ ".jpg",
          "https://" ++ domain ++ "/wp-content/uploads/" ++ clean_product ++ ".jpg",
          "https://cdn." ++ domain ++ "/products/" ++ clean_product ++ ".jpg" ]
      else fromSearch
    | none => []
  let image_urls : List String :=
    if image_urls.isEmpty then
      [ "https://via.placeholder.com/400x400/CCCCCC/666666?text=" ++ quoteFn product_name,
        "https://dummyimage.com/400x400/f0f0f0/333&text=" ++ quoteFn product_name,
        "https://picsum.photos/400/400?random=" ++ toString (hashFn product_name % 10000) ]
    else image_urls
  (dedup_strings image_urls).take 5

/-- The retry loop of `search_company_websites`: return the first
attempt yielding a nonempty URL list, give up after the attempt cap. -/
def company_loop (web : ℕ → Option (List String))
    (quoteFn : String → String) (hashFn : String → ℕ)
    (product_name brand_name : String) : ℕ → ℕ → List String
  | _, 0 => []
  | attempt, remaining + 1 =>
    let unique_urls := company_attempt (web attempt) quoteFn hashFn product_name brand_name
    if unique_urls.isEmpty then
      company_loop web quoteFn hashFn product_name brand_name (attempt + 1) remaining
    else unique_urls

/-- `ProductImageDownloader.search_company_websites` with the default
`max_retries = 3`. -/
def search_company_websites (web : ℕ → Option (List String))
    (quoteFn : String → String) (hashFn : String → ℕ)
    (product_name brand_name : String) : List String :=
  company_loop web quoteFn hashFn product_name brand_name 0 3

/-- Order used to model the stable
`unique_results.sort(key=lambda x: x['confidence'], reverse=True)` on
index-tagged entries. -/
def confRel (a b : ℕ × SearchEntry) : Prop :=
  b.2.confidence < a.2.confidence ∨
    (a.2.confidence = b.2.confidence ∧ a.1 ≤ b.1)

instance : DecidableRel confRel := fun _ _ => by
  unfold confRel; infer_instance

instance : IsTotal (ℕ × SearchEntry) confRel := by
  constructor
  intro a b
  rcases lt_trichotomy a.2.confidence b.2.confidence with h | h | h
  · exact Or.inr (Or.inl h)
  · rcases Nat.le_total a.1 b.1 with h1 | h1
    · exact Or.inl (Or.inr ⟨h, h1⟩)
    · exact Or.inr (Or.inr ⟨h.symm, h1⟩)
  · exact Or.inl (Or.inl h)

instance : IsTrans (ℕ × SearchEntry) confRel := by
  constructor
  rintro a b c (hab | ⟨hab, iab⟩) (hbc | ⟨hbc, ibc⟩)
  · exact Or.inl (lt_trans hbc hab)
  · exact Or.inl (hbc ▸ hab)
  · exact Or.inl (hab ▸ hbc)
  · exact Or.inr ⟨hab.trans hbc, le_trans iab ibc⟩

/-- Stable descending sort by confidence (line 395). -/
def conf_sort (l : List SearchEntry) : List SearchEntry :=
  ((l.enum).insertionSort confRel).map Prod.snd

/-- `ProductImageDownloader.search_product_images` (lines 344-398):
attach source names and confidences, deduplicate by URL keeping first
occurrences, sort by confidence descending, return the first 10.  The
four search calls are oracles delivering their URL lists. -/
def search_product_images
    (google_urls bing_urls wiki_urls company_urls : List String) :
    List SearchEntry :=
  let all_results : List SearchEntry :=
    google_urls.map (fun u => SearchEntry.mk u "google" (9/10)) ++
    bing_urls.map (fun u => SearchEntry.mk u "bing" (8/10)) ++
    wiki_urls.map (fun u => SearchEntry.mk u "wikipedia" (7/10)) ++
    company_urls.map (fun u => SearchEntry.mk u "company" (6/10))
  let unique_results := ImageScraper.dedup_by_aux (fun e => e.url) [] all_results
  (conf_sort unique_results).take 10

/-- `ProductImageDownloader.get_fallback_image_url` (lines 463-477). -/
def get_fallback_image_url (quoteFn : String → String) (hashFn : String → ℕ)
    (product_name : String) : String :=
  let seed := hashFn product_name % 10000
  let fallback_services : List String :=
    [ "https://picsum.photos/400/400?random=" ++ toString seed,
      "https://via.placeholder.com/400x400/CCCCCC/666666?text=" ++ quoteFn (product_name.take 20),
      "https://dummyimage.com/400x400/f0f0f0/333&text=" ++ quoteFn (product_name.take 15),
      "https://source.unsplash.com/400x400/?product," ++ quoteFn (product_name.take 10) ]
  fallback_services.getD (seed % fallback_services.length) ""

/-- Classifier for the synthetically generated placeholder services
used by `company_attempt` and `get_fallback_image_url` (spec-side
predicate, used only in theorem statements). -/
def is_placeholder_url (u : String) : Bool :=
  strIn "via.placeholder.com" u || strIn "dummyimage.com" u ||
  strIn "picsum.photos" u || strIn "source.unsplash.com" u

/-! ### Placeholder-merging lemmas (C8) -/

lemma listStarts_append (needle l m : List Char)
    (h : listStarts needle l = true) : listStarts needle (l ++ m) = true := by
  induction needle generalizing l with
  | nil => simp [listStarts]
  | cons c cs ih =>
    cases l with
    | nil => simp [listStarts] at h
    | cons b bs =>
      simp only [listStarts, Bool.and_eq_true] at h
      simp only [List.cons_append, listStarts, Bool.and_eq_true]
      exact ⟨h.1, ih bs h.2⟩

lemma listSub_append (needle l m : List Char)
    (h : listSub needle l = true) : listSub needle (l ++ m) = true := by
  induction l with
  | nil =>
    simp only [listSub] at h
    cases needle with
    | nil => cases m with
      | nil => simp [listSub]
      | cons c cs => simp [listSub, listStarts]
    | cons c cs => simp at h
  | cons b bs ih =>
    simp only [listSub, Bool.or_eq_true] at h
    simp only [List.cons_append, listSub, Bool.or_eq_true]
    rcases h with h | h
    · exact Or.inl (by
        have := listStarts_append needle (b :: bs) m h
        simpa using this)
    · exact Or.inr (ih h)

lemma strIn_append (needle a b : String) (h : strIn needle a = true) :
    strIn needle (a ++ b) = true := by
  unfold strIn at h ⊢
  rw [String.data_append]
  exact listSub_append needle.data a.data b.data h

lemma string_append_ne (a s b t : String) (i : ℕ)
    (hia : i < a.data.length) (hib : i < b.data.length)
    (hne : a.data.getD i ' ' ≠ b.data.getD i ' ') : a ++ s ≠ b ++ t := by
  intro he
  apply hne
  have hd : (a ++ s).data = (b ++ t).data := congrArg String.data he
  rw [String.data_append, String.data_append] at hd
  calc a.data.getD i ' ' = (a.data ++ s.data).getD i ' ' :=
        (List.getD_append a.data s.data ' ' i hia).symm
    _ = (b.data ++ t.data).getD i ' ' := by rw [hd]
    _ = b.data.getD i ' ' := List.getD_append b.data t.data ' ' i hib

/-- C8 (amended): the hash-based placeholder URLs are NOT kept out of
genuine search results: whenever no known brand domain matches the
search term, `search_company_websites` returns exactly the three
generic placeholder URLs, and `search_product_images` then attributes
them to the genuine source `company` with its normal confidence 0.6
(only the separate CLI no-result path labels a fallback URL with
source `fallback` and confidence 0.1). -/
theorem company_search_merges_placeholders
    (web : ℕ → Option (List String)) (quoteFn : String → String) (hashFn : String → ℕ)
    (product brand : String)
    (hdom : find_company_domain (pyLower (if brand.isEmpty then product else brand)) = none) :
    search_company_websites web quoteFn hashFn product brand =
      [ "https://via.placeholder.com/400x400/CCCCCC/666666?text=" ++ quoteFn product,
        "https://dummyimage.com/400x400/f0f0f0/333&text=" ++ quoteFn product,
        "https://picsum.photos/400/400?random=" ++ toString (hashFn product % 10000) ]
    ∧ ∀ u ∈ search_company_websites web quoteFn hashFn product brand,
        is_placeholder_url u = true := by
  have hne12 : ("https://via.placeholder.com/400x400/CCCCCC/666666?text=" ++ quoteFn product) ≠
      ("https://dummyimage.com/400x400/f0f0f0/333&text=" ++ quoteFn product) :=
    string_append_ne _ _ _ _ 8 (by decide) (by decide) (by decide)
  have hne13 : ("https://via.placeholder.com/400x400/CCCCCC/666666?text=" ++ quoteFn product) ≠
      ("https://picsum.photos/400/400?random=" ++ toString (hashFn product % 10000)) :=
    string_append_ne _ _ _ _ 8 (by decide) (by decide) (by decide)
  have hne23 : ("https://dummyimage.com/400x400/f0f0f0/333&text=" ++ quoteFn product) ≠
      ("https://picsum.photos/400/400?random=" ++ toString (hashFn product % 10000)) :=
    string_append_ne _ _ _ _ 8 (by decide) (by decide) (by decide)
  have hatt : company_attempt (web 0) quoteFn hashFn product brand =
      [ "https://via.placeholder.com/400x400/CCCCCC/666666?text=" ++ quoteFn product,
        "https://dummyimage.com/400x400/f0f0f0/333&text=" ++ quoteFn product,
        "https://picsum.photos/400/400?random=" ++ toString (hashFn product % 10000) ] := by
    simp only [company_attempt]
    rw [hdom]
    simp [dedup_strings, ImageScraper.dedup_by_aux, hne12.symm, hne13.symm, hne23.symm]
  have hmain : search_company_websites web quoteFn hashFn product brand =
      [ "https://via.placeholder.com/400x400/CCCCCC/666666?text=" ++ quoteFn product,
        "https://dummyimage.com/400x400/f0f0f0/333&text=" ++ quoteFn product,
        "https://picsum.photos/400/400?random=" ++ toString (hashFn product % 10000) ] := by
    unfold search_company_websites
    simp only [company_loop]
    rw [hatt]
    simp
  refine ⟨hmain, ?_⟩
  rw [hmain]
  intro u hu
  have hp1 : is_placeholder_url
      ("https://via.placeholder.com/400x400/CCCCCC/666666?text=" ++ quoteFn product) = true := by
    unfold is_placeholder_url
    rw [strIn_append "via.placeholder.com"
      "https://via.placeholder.com/400x400/CCCCCC/666666?text=" (quoteFn product) (by decide)]
    simp
  have hp2 : is_placeholder_url
      ("https://dummyimage.com/400x400/f0f0f0/333&text=" ++ quoteFn product) = true := by
    unfold is_placeholder_url
    rw [strIn_append "dummyimage.com"
      "https://dummyimage.com/400x400/f0f0f0/333&text=" (quoteFn product) (by decide)]
    simp
  have hp3 : is_placeholder_url
      ("https://picsum.photos/400/400?random=" ++ toString (hashFn product % 10000)) = true := by
    unfold is_placeholder_url
    rw [strIn_append "picsum.photos"
      "https://picsum.photos/400/400?random=" (toString (hashFn product % 10000)) (by decide)]
    simp
  rcases List.mem_cons.mp hu with rfl | hu
  · exact hp1
  rcases List.mem_cons.mp hu with rfl | hu
  · exact hp2
  rcases List.mem_cons.mp hu with rfl | hu
  · exact hp3
  · simp at hu

theorem company_search_merges_placeholders_witness :
    find_company_domain (pyLower (if ("" : String).isEmpty then "xyzzy" else "")) = none
    ∧ search_company_websites (fun _ => none) (fun s => s) (fun _ => 0) "xyzzy" "" =
      [ "https://via.placeholder.com/400x400/CCCCCC/666666?text=" ++ "xyzzy",
        "https://dummyimage.com/400x400/f0f0f0/333&text=" ++ "xyzzy",
        "https://picsum.photos/400/400?random=" ++ toString (0 % 10000) ] :=
  ⟨by decide,
   (company_search_merges_placeholders (fun _ => none) (fun s => s) (fun _ => 0)
     "xyzzy" "" (by decide)).1⟩

/-- C8 counterexample: with no genuine hit from any source, the three
synthetically generated placeholder URLs appear in the final merged
search results attributed to the genuine source `company` with its
normal confidence 0.6 — not as distinct, explicitly low-confidence
entries (the explicit fallback label used elsewhere is `fallback`
with confidence 0.1). -/
theorem placeholder_attributed_to_company :
    (search_product_images [] [] []
      (search_company_websites (fun _ => none) (fun s => s) (fun _ => 0) "xyzzy" "")) =
      [ { url := "https://via.placeholder.com/400x400/CCCCCC/666666?text=xyzzy",
          source := "company", confidence := 6/10 },
        { url := "https://dummyimage.com/400x400/f0f0f0/333&text=xyzzy",
          source := "company", confidence := 6/10 },
        { url := "https://picsum.photos/400/400?random=0",
          source := "company", confidence := 6/10 } ]
    ∧ is_placeholder_url "https://via.placeholder.com/400x400/CCCCCC/666666?text=xyzzy" = true
    ∧ ("company" : String) ≠ "fallback"
    ∧ ((6 : ℚ)/10) ≠ 1/10 := by
  refine ⟨?_, by decide, by decide, by norm_num⟩
  norm_num +decide [search_product_images, search_company_websites, company_loop,
    company_attempt, dedup_strings, ImageScraper.dedup_by_aux, conf_sort,
    List.enum, List.enumFrom, List.insertionSort, List.orderedInsert, confRel]

end Downloader

namespace ImageScraper

/-! ### Spec-side scoring function (for the refinement claim C4)

`spec_score` is written from the words of spec §4.3, to be compared
with `calculate_quality_score`, which is translated from the code. -/

/-- Modelled from the spec: resolution band, weight 0.4; shorter side
≥400 and longer ≤1200 → full weight; shorter ≥200 and longer ≤2000 →
0.75 of weight; shorter ≥100 → 0.375 of weight; else 0. -/
def spec_resolution_band (width height : ℕ) : ℚ :=
  let shorter := min width height
  let longer := max width height
  if 400 ≤ shorter ∧ longer ≤ 1200 then 4/10
  else if 200 ≤ shorter ∧ longer ≤ 2000 then (75/100) * (4/10)
  else if 100 ≤ shorter then (375/1000) * (4/10)
  else 0

/-- Modelled from the spec: aspect-ratio band, weight 0.2; undefined
(zero dimension) → 0; longer:shorter ≤ 1.5 → full weight; ≤ 2.0 →
half weight; else 0. -/
def spec_aspect_band (width height : ℕ) : ℚ :=
  if width = 0 ∨ height = 0 then 0
  else
    let ratio : ℚ := ((max width height : ℕ) : ℚ) / ((min width height : ℕ) : ℚ)
    if ratio ≤ 15/10 then 2/10
    else if ratio ≤ 2 then (1/2) * (2/10)
    else 0

/-- Modelled from the spec: byte-size band, weight 0.2; 10 KB-500 KB
→ full weight; 5 KB-1 MB → half weight; else 0. -/
def spec_byte_band (file_size : ℕ) : ℚ :=
  if 10000 ≤ file_size ∧ file_size ≤ 500000 then 2/10
  else if 5000 ≤ file_size ∧ file_size ≤ 1000000 then (1/2) * (2/10)
  else 0

/-- Modelled from the spec: format factor, multiplied into the 0.2
weight: jpeg 1.0 (the code also accepts the spelling `jpg`), png 0.9,
webp 0.75, gif 0.25, unknown 0.25.  Takes the already-lowercased
format name. -/
def spec_format_factor (format : String) : ℚ :=
  if format = "jpeg" ∨ format = "jpg" then 1
  else if format = "png" then 9/10
  else if format = "webp" then 75/100
  else if format = "gif" then 25/100
  else 25/100

/-- Modelled from the spec: score = sum of weighted contributions,
clamped to [0,1]. -/
def spec_score (width height file_size : ℕ) (format : String) : ℚ :=
  max (min (spec_resolution_band width height + spec_aspect_band width height +
    spec_byte_band file_size + (2/10) * spec_format_factor format) 1) 0

lemma format_scores_get_eq (format : String) :
    format_scores_get format = (2/10) * spec_format_factor (pyLower format) := by
  unfold format_scores_get spec_format_factor
  by_cases h1 : pyLower format = "jpeg"
  · norm_num +decide [h1]
  · by_cases h2 : pyLower format = "jpg"
    · norm_num +decide [h1, h2]
    · by_cases h3 : pyLower format = "png"
      · norm_num +decide [h1, h2, h3]
      · by_cases h4 : pyLower format = "webp"
        · norm_num +decide [h1, h2, h3, h4]
        · by_cases h5 : pyLower format = "gif"
          · norm_num +decide [h1, h2, h3, h4, h5]
          · norm_num +decide [h1, h2, h3, h4, h5]

lemma format_scores_get_nonneg (format : String) : 0 ≤ format_scores_get format := by
  simp only [format_scores_get]
  split_ifs <;> norm_num

lemma format_scores_get_le (format : String) : format_scores_get format ≤ 2/10 := by
  simp only [format_scores_get]
  split_ifs <;> norm_num

/-- The three non-format addends of `calculate_quality_score`, named
for reuse in the proofs below (definitionally the `let` bodies of the
source function). -/
def resolution_part (width height : ℕ) : ℚ :=
  if 400 ≤ min width height ∧ max width height ≤ 1200 then 4/10
  else if 200 ≤ min width height ∧ max width height ≤ 2000 then 3/10
  else if 100 ≤ min width height then 15/100
  else 0

def aspect_part (width height : ℕ) : ℚ :=
  if 0 < width ∧ 0 < height then
    if ((max width height : ℕ) : ℚ) / ((min width height : ℕ) : ℚ) ≤ 15/10 then 2/10
    else if ((max width height : ℕ) : ℚ) / ((min width height : ℕ) : ℚ) ≤ 2 then 1/10
    else 0
  else 0

def size_part (file_size : ℕ) : ℚ :=
  if 0 < file_size then
    if 10000 ≤ file_size ∧ file_size ≤ 500000 then 2/10
    else if 5000 ≤ file_size ∧ file_size ≤ 1000000 then 1/10
    else 0
  else 0

lemma calculate_quality_score_eq (width height file_size : ℕ) (format : String) :
    calculate_quality_score width height file_size format =
      min (resolution_part width height + aspect_part width height +
        size_part file_size + format_scores_get format) 1 := rfl

lemma resolution_part_nonneg (w h : ℕ) : 0 ≤ resolution_part w h := by
  unfold resolution_part; split <;> norm_num
  split <;> norm_num
  split <;> norm_num

lemma resolution_part_le (w h : ℕ) : resolution_part w h ≤ 4/10 := by
  unfold resolution_part; split <;> norm_num
  split <;> norm_num
  split <;> norm_num

lemma aspect_part_nonneg (w h : ℕ) : 0 ≤ aspect_part w h := by
  unfold aspect_part; split <;> norm_num
  split <;> norm_num
  split <;> norm_num

lemma aspect_part_le (w h : ℕ) : aspect_part w h ≤ 2/10 := by
  unfold aspect_part; split <;> norm_num
  split <;> norm_num
  split <;> norm_num

lemma size_part_nonneg (fs : ℕ) : 0 ≤ size_part fs := by
  unfold size_part; split <;> norm_num
  split <;> norm_num
  split <;> norm_num

lemma size_part_le (fs : ℕ) : size_part fs ≤ 2/10 := by
  unfold size_part; split <;> norm_num
  split <;> norm_num
  split <;> norm_num

lemma sum_parts_nonneg (w h fs : ℕ) (fmt : String) :
    0 ≤ resolution_part w h + aspect_part w h + size_part fs + format_scores_get fmt := by
  have h1 := resolution_part_nonneg w h
  have h2 := aspect_part_nonneg w h
  have h3 := size_part_nonneg fs
  have h4 := format_scores_get_nonneg fmt
  linarith

lemma resolution_part_eq_spec (w h : ℕ) :
    resolution_part w h = spec_resolution_band w h := by
  unfold resolution_part spec_resolution_band
  norm_num

lemma aspect_part_eq_spec (w h : ℕ) :
    aspect_part w h = spec_aspect_band w h := by
  unfold aspect_part spec_aspect_band
  by_cases hw : 0 < w
  · by_cases hh : 0 < h
    · simp only [hw, hh, and_self, if_true]
      have : ¬(w = 0 ∨ h = 0) := by omega
      simp only [this, if_false]
      norm_num
    · have h0 : h = 0 := by omega
      simp [h0, hh]
  · have h0 : w = 0 := by omega
    simp [h0, hw]

lemma size_part_eq_spec (fs : ℕ) :
    size_part fs = spec_byte_band fs := by
  unfold size_part spec_byte_band
  by_cases h0 : 0 < fs
  · simp only [h0, if_true]
    norm_num
  · have : fs = 0 := by omega
    subst this
    norm_num

/-- C4: the quality score is a pure deterministic function of
(width, height, byteSize, format) equal to the sum of the spec's
weighted band contributions clamped to [0,1] (resolution band 0.4 /
0.75·0.4 / 0.375·0.4 / 0, format factor jpeg 1.0, png 0.9, webp 0.75,
gif 0.25, unknown 0.25 multiplied into the 0.2 weight), its value
always lies in [0,1], and `score(800,800,150000,"jpeg")` is the fixed
constant 1. -/
theorem quality_score_is_spec_score :
    (∀ w h fs fmt, calculate_quality_score w h fs fmt = spec_score w h fs (pyLower fmt))
    ∧ (∀ w h fs fmt, 0 ≤ calculate_quality_score w h fs fmt ∧
        calculate_quality_score w h fs fmt ≤ 1)
    ∧ calculate_quality_score 800 800 150000 "jpeg" = 1 := by
  refine ⟨?_, ?_, ?_⟩
  · intro w h fs fmt
    have hnn := sum_parts_nonneg w h fs fmt
    rw [calculate_quality_score_eq]
    unfold spec_score
    rw [← resolution_part_eq_spec, ← aspect_part_eq_spec, ← size_part_eq_spec,
      ← format_scores_get_eq]
    rw [max_eq_left (le_min hnn zero_le_one)]
  · intro w h fs fmt
    rw [calculate_quality_score_eq]
    exact ⟨le_min (sum_parts_nonneg w h fs fmt) zero_le_one, min_le_right _ _⟩
  · norm_num +decide [calculate_quality_score, format_scores_get, pyLower]

/-- C3 counterexample: on a failed metadata fetch the stored tuple is
(0, 0, 0, ""), but the code scores it 0.05 (the unknown-format floor
of the `format_scores` lookup), not 0.0 as claimed. -/
theorem score_of_zero_metadata_not_zero :
    calculate_quality_score 0 0 0 "" = 1/20 ∧ ((1 : ℚ)/20) ≠ 0 := by
  constructor
  · norm_num +decide [calculate_quality_score, format_scores_get, pyLower]
  · norm_num

/-- C3 (amended): for every candidate whose metadata fetch fails (the
`_get_image_info` oracle answers its error value (0, 0, 0, "")), the
scored candidate has width, height and byteSize zero and empty format,
and its score is exactly 0.05 — the unknown-format floor — rather
than 0.0. -/
theorem failed_fetch_candidate_fields (info : String → ℕ × ℕ × ℕ × String)
    (r : ImageResult) (h : info r.url = (0, 0, 0, "")) :
    (score_candidate info r).width = 0 ∧ (score_candidate info r).height = 0 ∧
    (score_candidate info r).file_size = 0 ∧ (score_candidate info r).format = "" ∧
    (score_candidate info r).quality_score = 1/20 := by
  simp only [score_candidate, h]
  norm_num +decide [calculate_quality_score, format_scores_get, pyLower]

theorem failed_fetch_candidate_fields_witness :
    (score_candidate (fun _ => (0, 0, 0, ""))
      { url := "u", source := "google", quality_score := 0 }).quality_score = 1/20 :=
  (failed_fetch_candidate_fields (fun _ => (0, 0, 0, ""))
    { url := "u", source := "google", quality_score := 0 } rfl).2.2.2.2

/-- C7: for fixed aspect ratio (stated by cross-multiplication so it
is defined for all positive dimensions), byte size and format, moving
the dimensions from inside the ideal resolution band (shorter side
≥400, longer side ≤1200) to dimensions with shorter side below 100
strictly decreases the score. -/
theorem ideal_band_to_tiny_strictly_decreases
    (w h w2 h2 fs : ℕ) (fmt : String)
    (hband : 400 ≤ min w h ∧ max w h ≤ 1200)
    (hsmall : min w2 h2 < 100) (hw2 : 0 < w2) (hh2 : 0 < h2)
    (hratio : ((max w h : ℕ) : ℚ) * ((min w2 h2 : ℕ) : ℚ) =
      ((max w2 h2 : ℕ) : ℚ) * ((min w h : ℕ) : ℚ)) :
    calculate_quality_score w2 h2 fs fmt < calculate_quality_score w h fs fmt := by
  rw [calculate_quality_score_eq, calculate_quality_score_eq]
  have hw : 0 < w := by omega
  have hh : 0 < h := by omega
  have hres1 : resolution_part w h = 4/10 := by
    unfold resolution_part
    rw [if_pos hband]
  have hres2 : resolution_part w2 h2 = 0 := by
    unfold resolution_part
    rw [if_neg (by omega), if_neg (by omega), if_neg (by omega)]
  have hmin1 : (0 : ℚ) < ((min w h : ℕ) : ℚ) := by
    have : 0 < min w h := by omega
    exact_mod_cast this
  have hmin2 : (0 : ℚ) < ((min w2 h2 : ℕ) : ℚ) := by
    have : 0 < min w2 h2 := by omega
    exact_mod_cast this
  have heq : ((max w h : ℕ) : ℚ) / ((min w h : ℕ) : ℚ) =
      ((max w2 h2 : ℕ) : ℚ) / ((min w2 h2 : ℕ) : ℚ) := by
    rw [div_eq_div_iff hmin1.ne' hmin2.ne']
    linarith
  have hasp : aspect_part w h = aspect_part w2 h2 := by
    unfold aspect_part
    have hg1 : 0 < w ∧ 0 < h := ⟨hw, hh⟩
    have hg2 : 0 < w2 ∧ 0 < h2 := ⟨hw2, hh2⟩
    rw [if_pos hg1, if_pos hg2, heq]
  have hA := aspect_part_nonneg w2 h2
  have hA2 := aspect_part_le w2 h2
  have hS := size_part_nonneg fs
  have hS2 := size_part_le fs
  have hF := format_scores_get_nonneg fmt
  have hF2 := format_scores_get_le fmt
  rw [hres1, hres2, hasp]
  rw [min_eq_left (show (0 : ℚ) + aspect_part w2 h2 + size_part fs +
        format_scores_get fmt ≤ 1 by linarith),
      min_eq_left (show (4 : ℚ)/10 + aspect_part w2 h2 + size_part fs +
        format_scores_get fmt ≤ 1 by linarith)]
  linarith

theorem ideal_band_to_tiny_witness :
    (400 ≤ min 400 400 ∧ max 400 400 ≤ 1200) ∧ min 50 50 < 100 ∧
    calculate_quality_score 50 50 0 "" < calculate_quality_score 400 400 0 "" :=
  ⟨by norm_num, by norm_num,
    ideal_band_to_tiny_strictly_decreases 400 400 50 50 0 ""
      (by norm_num) (by norm_num) (by norm_num) (by norm_num) (by norm_num)⟩

/-! ### Orchestrator lemmas (C1, C10, C2) -/

lemma scrape_sources_facts
    (g b e : List ImageResult) (info : String → ℕ × ℕ × ℕ × String)
    (dl : String → Option String) (pn bn : String) (d : Bool) :
    "google" ∈ (scrape_product_images g b e info dl pn bn d).sources_searched
    ∧ "bing" ∈ (scrape_product_images g b e info dl pn bn d).sources_searched
    ∧ MIN_SOURCES ≤ (scrape_product_images g b e info dl pn bn d).sources_searched.length
    ∧ (scrape_product_images g b e info dl pn bn d).error ≠
        some "Failed to search minimum 2 sources" := by
  simp only [scrape_product_images]
  split_ifs <;> simp_all [MIN_SOURCES]

/-- C10: `sources_searched` always contains both `google` and `bing`
(they are appended unconditionally, regardless of search errors or
empty results), hence its length is always at least `MIN_SOURCES` and
the failure branch returning the minimum-sources error is
unreachable. -/
theorem sources_always_google_bing
    (g b e : List ImageResult) (info : String → ℕ × ℕ × ℕ × String)
    (dl : String → Option String) (pn bn : String) (d : Bool) :
    "google" ∈ (scrape_product_images g b e info dl pn bn d).sources_searched
    ∧ "bing" ∈ (scrape_product_images g b e info dl pn bn d).sources_searched
    ∧ MIN_SOURCES ≤ (scrape_product_images g b e info dl pn bn d).sources_searched.length
    ∧ (scrape_product_images g b e info dl pn bn d).error ≠
        some "Failed to search minimum 2 sources" :=
  scrape_sources_facts g b e info dl pn bn d

/-- C1 (amended): whenever `success = true` the `sources_searched`
list has length at least the configured minimum `MIN_SOURCES = 2`;
however the check counts sources *searched*, not sources that
returned a non-error result — `google` and `bing` are counted
unconditionally — so an acquisition where only one source yields
results still succeeds (see the counterexample). -/
theorem success_implies_min_sources
    (g b e : List ImageResult) (info : String → ℕ × ℕ × ℕ × String)
    (dl : String → Option String) (pn bn : String) (d : Bool)
    (hs : (scrape_product_images g b e info dl pn bn d).success = true) :
    MIN_SOURCES ≤ (scrape_product_images g b e info dl pn bn d).sources_searched.length :=
  (scrape_sources_facts g b e info dl pn bn d).2.2.1

/-- C1 counterexample: in the 1-of-3 scenario (only google returns a
result, bing and ecommerce return nothing) the call does NOT fail with
an insufficient-sources error of a size-1 `sources_searched`: it
returns `success = true`, `sources_searched = ["google", "bing"]` of
size 2, and no error. -/
theorem one_source_scenario_succeeds :
    (scrape_product_images
      [{ url := "http://x/img.jpg", source := "google", quality_score := 0 }] [] []
      (fun _ => (0, 0, 0, "")) (fun _ => none) "p" "" false).success = true
    ∧ (scrape_product_images
      [{ url := "http://x/img.jpg", source := "google", quality_score := 0 }] [] []
      (fun _ => (0, 0, 0, "")) (fun _ => none) "p" "" false).sources_searched =
        ["google", "bing"]
    ∧ (scrape_product_images
      [{ url := "http://x/img.jpg", source := "google", quality_score := 0 }] [] []
      (fun _ => (0, 0, 0, "")) (fun _ => none) "p" "" false).error = none := by
  refine ⟨?_, ?_, ?_⟩ <;>
    simp [scrape_product_images, valid_results, truthyStr, falsyErr, unique_by_url,
      dedup_by_aux, MIN_SOURCES]

theorem success_implies_min_sources_witness :
    (scrape_product_images
      [{ url := "http://x/img.jpg", source := "google", quality_score := 0 }] [] []
      (fun _ => (0, 0, 0, "")) (fun _ => none) "p2" "" false).success = true
    ∧ MIN_SOURCES ≤ (scrape_product_images
      [{ url := "http://x/img.jpg", source := "google", quality_score := 0 }] [] []
      (fun _ => (0, 0, 0, "")) (fun _ => none) "p2" "" false).sources_searched.length :=
  ⟨by simp [scrape_product_images, valid_results, truthyStr, falsyErr, unique_by_url,
      dedup_by_aux, MIN_SOURCES],
   success_implies_min_sources _ _ _ _ _ "p2" "" false
     (by simp [scrape_product_images, valid_results, truthyStr, falsyErr, unique_by_url,
       dedup_by_aux, MIN_SOURCES])⟩

/-! ### Download fallback (C2) -/

lemma download_loop_congr (fetch fetch' : ℕ → FetchOutcome) (pathFor : String → String) :
    ∀ (n a : ℕ), (∀ i, i < a + n → fetch i = fetch' i) →
      download_loop fetch pathFor a n = download_loop fetch' pathFor a n := by
  intro n
  induction n with
  | zero => intro a h; rfl
  | succ n ih =>
    intro a h
    have hfa : fetch a = fetch' a := h a (by omega)
    have hrec := ih (a + 1) (fun i hi => h i (by omega))
    simp only [download_loop]
    rw [hfa]
    cases fetch' a with
    | raise => exact hrec
    | ok size valid format =>
      cases valid with
      | false => simpa using hrec
      | true =>
        by_cases hs : size < 1024
        · simp [hs, hrec]
        · simp [hs]

lemma scrape_ignores_download_outcome
    (g b e : List ImageResult) (info : String → ℕ × ℕ × ℕ × String)
    (dl dl' : String → Option String) (pn bn : String) (d : Bool) :
    (scrape_product_images g b e info dl pn bn d).success =
      (scrape_product_images g b e info dl' pn bn d).success
    ∧ (scrape_product_images g b e info dl pn bn d).best_image =
      (scrape_product_images g b e info dl' pn bn d).best_image
    ∧ (scrape_product_images g b e info dl pn bn d).error =
      (scrape_product_images g b e info dl' pn bn d).error := by
  simp only [scrape_product_images]
  split_ifs <;> simp

/-- C2 (amended): the downloader retries only the single top-ranked
candidate, never advancing to lower-ranked ones: `download_image`'s
behaviour depends only on its first `max_retries` (3) fetch attempts
for that one URL, and the acquisition's `success`, `best_image` and
`error` are completely independent of every download outcome — when
all attempts for the top candidate fail, the call still returns
`success = true` with `chosen` equal to the top-ranked (not the next
succeeding) candidate and no local path (see the counterexample). -/
theorem download_only_top_candidate :
    (∀ (fetch fetch' : ℕ → FetchOutcome) (pathFor : String → String) (n a : ℕ),
      (∀ i, i < a + n → fetch i = fetch' i) →
      download_loop fetch pathFor a n = download_loop fetch' pathFor a n)
    ∧ (∀ (g b e : List ImageResult) (info : String → ℕ × ℕ × ℕ × String)
        (dl dl' : String → Option String) (pn bn : String) (d : Bool),
        (scrape_product_images g b e info dl pn bn d).success =
          (scrape_product_images g b e info dl' pn bn d).success ∧
        (scrape_product_images g b e info dl pn bn d).best_image =
          (scrape_product_images g b e info dl' pn bn d).best_image ∧
        (scrape_product_images g b e info dl pn bn d).error =
          (scrape_product_images g b e info dl' pn bn d).error) :=
  ⟨fun fetch fetch' pathFor n a h => download_loop_congr fetch fetch' pathFor n a h,
   fun g b e info dl dl' pn bn d => scrape_ignores_download_outcome g b e info dl dl' pn bn d⟩

theorem download_only_top_candidate_witness :
    download_loop (fun _ => FetchOutcome.raise) (fun f => "o." ++ f) 3 0 =
      download_loop
        (fun i => if i < 3 then FetchOutcome.raise else FetchOutcome.ok 2000 true "jpeg")
        (fun f => "o." ++ f) 3 0 :=
  download_only_top_candidate.1 (fun _ => FetchOutcome.raise)
    (fun i => if i < 3 then FetchOutcome.raise else FetchOutcome.ok 2000 true "jpeg")
    (fun f => "o." ++ f) 0 3 (fun i hi => by simp [show i < 3 by omega])

/-- Ranked three-candidate scenario for the C2 counterexample: three
google results; the metadata oracle scores them strictly decreasing. -/
def gC2 : List ImageResult :=
  [{ url := "u1", source := "google", quality_score := 0 },
   { url := "u2", source := "google", quality_score := 0 },
   { url := "u3", source := "google", quality_score := 0 }]

def infoC2 : String → ℕ × ℕ × ℕ × String := fun url =>
  if url = "u1" then (800, 800, 150000, "jpeg")
  else if url = "u2" then (200, 200, 150000, "jpeg")
  else (100, 100, 150000, "jpeg")

/-- Download oracle where the top two ranked candidates always fail
and the third succeeds. -/
def dlC2 : String → Option String := fun url =>
  if url = "u3" then some "out/p.jpg" else none

/-- C2 counterexample: with three ranked candidates where the first
two fail validation and the third would succeed, the call does NOT
return the third candidate's URL as `chosen`: the chosen candidate
stays the top-ranked `u1`, no file is downloaded (`local_path =
none`), and `success` is still `true`. -/
theorem fallback_scenario_refuted :
    ((scrape_product_images gC2 [] [] infoC2 dlC2 "p" "" true).best_image.map
      (fun r => r.url) = some "u1")
    ∧ (scrape_product_images gC2 [] [] infoC2 dlC2 "p" "" true).local_path = none
    ∧ (scrape_product_images gC2 [] [] infoC2 dlC2 "p" "" true).success = true
    ∧ ("u1" : String) ≠ "u3" := by
  refine ⟨?_, ?_, ?_, by decide⟩ <;>
    norm_num +decide [scrape_product_images, valid_results, truthyStr, falsyErr,
      unique_by_url, dedup_by_aux, MIN_SOURCES, gC2, infoC2, dlC2, score_candidate,
      select_sort, ranked_enum, List.enum, List.enumFrom, List.insertionSort,
      List.orderedInsert, selRel, calculate_quality_score, format_scores_get, pyLower]

/-! ### Download persistence (C9) -/

lemma replay_size_write_remove (q : String) (s : ℕ) (tr : List FsEvent) (p : String) :
    replay_size (FsEvent.write q s :: FsEvent.remove q :: tr) p = replay_size tr p := by
  simp only [replay_size, List.foldl]
  by_cases h : q = p <;> simp [h]

lemma download_loop_raise (fetch : ℕ → FetchOutcome) (pathFor : String → String)
    (a n : ℕ) (hfa : fetch a = FetchOutcome.raise) :
    download_loop fetch pathFor a (n + 1) = download_loop fetch pathFor (a + 1) n := by
  simp only [download_loop, hfa]

lemma download_loop_invalid (fetch : ℕ → FetchOutcome) (pathFor : String → String)
    (a n size : ℕ) (format : String)
    (hfa : fetch a = FetchOutcome.ok size false format) :
    download_loop fetch pathFor a (n + 1) = download_loop fetch pathFor (a + 1) n := by
  simp only [download_loop, hfa]
  simp

lemma download_loop_small (fetch : ℕ → FetchOutcome) (pathFor : String → String)
    (a n size : ℕ) (format : String)
    (hfa : fetch a = FetchOutcome.ok size true format) (hs : size < 1024) :
    download_loop fetch pathFor a (n + 1) =
      (FsEvent.write (pathFor (if format.isEmpty then "jpg" else pyLower format)) size ::
        FsEvent.remove (pathFor (if format.isEmpty then "jpg" else pyLower format)) ::
        (download_loop fetch pathFor (a + 1) n).1,
       (download_loop fetch pathFor (a + 1) n).2) := by
  simp only [download_loop, hfa]
  simp [hs]

lemma download_loop_big (fetch : ℕ → FetchOutcome) (pathFor : String → String)
    (a n size : ℕ) (format : String)
    (hfa : fetch a = FetchOutcome.ok size true format) (hs : ¬ size < 1024) :
    download_loop fetch pathFor a (n + 1) =
      ([FsEvent.write (pathFor (if format.isEmpty then "jpg" else pyLower format)) size],
       some (pathFor (if format.isEmpty then "jpg" else pyLower format))) := by
  simp only [download_loop, hfa]
  simp [hs]

lemma download_loop_success_replay (fetch : ℕ → FetchOutcome) (pathFor : String → String) :
    ∀ (n a : ℕ) (p : String), (download_loop fetch pathFor a n).2 = some p →
      ∃ s, 1024 ≤ s ∧ replay_size (download_loop fetch pathFor a n).1 p = some s := by
  intro n
  induction n with
  | zero =>
    intro a p h
    simp [download_loop] at h
  | succ n ih =>
    intro a p h
    cases hfa : fetch a with
    | raise =>
      rw [download_loop_raise fetch pathFor a n hfa] at h ⊢
      exact ih (a + 1) p h
    | ok size valid format =>
      cases valid with
      | false =>
        rw [download_loop_invalid fetch pathFor a n size format hfa] at h ⊢
        exact ih (a + 1) p h
      | true =>
        by_cases hs : size < 1024
        · rw [download_loop_small fetch pathFor a n size format hfa hs] at h ⊢
          obtain ⟨s, h1, h2⟩ := ih (a + 1) p h
          exact ⟨s, h1, by rw [replay_size_write_remove]; exact h2⟩
        · rw [download_loop_big fetch pathFor a n size format hfa hs] at h ⊢
          have hp := Option.some.inj h
          refine ⟨size, by omega, ?_⟩
          rw [← hp]
          simp [replay_size]


/-- C9 (amended): a path is returned only when a fetch attempt
actually succeeded and the file left on disk at that path is at least
1024 bytes (this half of the claim holds); but the write is NOT
atomic — the body is written straight to the target path before the
size check and only removed afterwards, so a cancellation between the
write and the remove leaves a sub-threshold file at the target path
(see the counterexample exhibiting that reachable intermediate
state). -/
theorem local_path_min_size
    (fetch : ℕ → FetchOutcome) (pathFor : String → String) (n : ℕ) (p : String)
    (h : (download_image fetch pathFor n).2 = some p) :
    ∃ s, 1024 ≤ s ∧ replay_size (download_image fetch pathFor n).1 p = some s :=
  download_loop_success_replay fetch pathFor n 0 p h

theorem local_path_min_size_witness :
    ((download_image (fun _ => FetchOutcome.ok 2000 true "jpeg")
        (fun f => String.append "out." f) 3).2 = some "out.jpeg")
    ∧ ∃ s, 1024 ≤ s ∧ replay_size
        (download_image (fun _ => FetchOutcome.ok 2000 true "jpeg")
          (fun f => String.append "out." f) 3).1 "out.jpeg" = some s :=
  ⟨by simp +decide [download_image, download_loop],
   local_path_min_size (fun _ => FetchOutcome.ok 2000 true "jpeg")
     (fun f => String.append "out." f) 3 "out.jpeg"
     (by simp +decide [download_image, download_loop])⟩

def fetchC9 : ℕ → FetchOutcome := fun i =>
  if i = 0 then FetchOutcome.ok 10 true "jpeg" else FetchOutcome.raise

def pathC9 : String → String := fun fmt => String.append "out/p." fmt

/-- C9 counterexample: an undersized (10-byte) valid image is written
to the final target path and removed only afterwards; the event trace
therefore passes through a state (after its first event) in which the
target path holds a 10-byte file, so an interruption there leaves a
file below the 1024-byte minimum — the write is not
write-then-rename. -/
theorem truncated_file_state_reachable :
    (download_image fetchC9 pathC9 3).1.take 1 = [FsEvent.write "out/p.jpeg" 10]
    ∧ replay_size [FsEvent.write "out/p.jpeg" 10] "out/p.jpeg" = some 10
    ∧ 10 < 1024
    ∧ (download_image fetchC9 pathC9 3).2 = none := by
  refine ⟨?_, by simp [replay_size], by norm_num, ?_⟩ <;>
    simp +decide [download_image, download_loop, fetchC9, pathC9]

/-! ### Deduplication lemmas (C6) -/

lemma dedup_by_aux_sublist {α : Type} (key : α → String) (seen : List String)
    (l : List α) : (dedup_by_aux key seen l).Sublist l := by
  induction l generalizing seen with
  | nil => simp [dedup_by_aux]
  | cons a rest ih =>
    simp only [dedup_by_aux]
    split
    · exact (ih seen).cons a
    · exact (ih _).cons₂ a

lemma dedup_by_aux_avoids_seen {α : Type} (key : α → String) (seen : List String)
    (l : List α) (r : α) (hr : r ∈ dedup_by_aux key seen l) : key r ∉ seen := by
  induction l generalizing seen with
  | nil => simp [dedup_by_aux] at hr
  | cons a rest ih =>
    simp only [dedup_by_aux] at hr
    split at hr
    · exact ih seen hr
    · rename_i hseen
      rcases List.mem_cons.mp hr with rfl | hmem
      · exact hseen
      · intro hs
        exact ih (key a :: seen) hmem (List.mem_cons_of_mem _ hs)

lemma dedup_by_aux_nodup {α : Type} (key : α → String) (seen : List String)
    (l : List α) : ((dedup_by_aux key seen l).map key).Nodup := by
  induction l generalizing seen with
  | nil => simp [dedup_by_aux]
  | cons a rest ih =>
    simp only [dedup_by_aux]
    split
    · exact ih seen
    · simp only [List.map_cons, List.nodup_cons]
      refine ⟨?_, ih _⟩
      intro hmem
      obtain ⟨r, hr, hkey⟩ := List.mem_map.mp hmem
      exact dedup_by_aux_avoids_seen key _ rest r hr (hkey ▸ List.mem_cons_self _ _)

lemma dedup_by_aux_mem {α : Type} (key : α → String) (seen : List String)
    (l : List α) (u : String) (hu : u ∉ seen) (hmem : u ∈ l.map key) :
    u ∈ (dedup_by_aux key seen l).map key := by
  induction l generalizing seen with
  | nil => simp at hmem
  | cons a rest ih =>
    simp only [List.map_cons, List.mem_cons] at hmem
    simp only [dedup_by_aux]
    split
    · rename_i hseen
      rcases hmem with rfl | hmem
      · exact absurd hseen hu
      · exact ih seen hu hmem
    · simp only [List.map_cons, List.mem_cons]
      rcases hmem with rfl | hmem
      · exact Or.inl rfl
      · by_cases he : u = key a
        · exact Or.inl he
        · refine Or.inr (ih (key a :: seen) ?_ hmem)
          simp only [List.mem_cons, not_or]
          exact ⟨he, hu⟩

lemma dedup_by_aux_find {α : Type} (key : α → String) (seen : List String)
    (l : List α) (u : String) (hu : u ∉ seen) :
    (dedup_by_aux key seen l).find? (fun r => key r == u) =
      l.find? (fun r => key r == u) := by
  induction l generalizing seen with
  | nil => rfl
  | cons a rest ih =>
    simp only [dedup_by_aux]
    by_cases hseen : key a ∈ seen
    · rw [if_pos hseen]
      have hne : (key a == u) = false := by
        simp only [beq_eq_false_iff_ne, ne_eq]
        intro he
        exact hu (he ▸ hseen)
      simp only [List.find?, hne]
      exact ih seen hu
    · rw [if_neg hseen]
      cases hpa : (key a == u) with
      | true => simp only [List.find?, hpa]
      | false =>
        simp only [List.find?, hpa]
        refine ih (key a :: seen) ?_
        simp only [List.mem_cons, not_or]
        simp only [beq_eq_false_iff_ne, ne_eq] at hpa
        exact ⟨fun h => hpa h.symm, hu⟩

/-- C6: the deduplicating merge keeps the order of the input (it is a
sublist of the concatenated, source-priority-ordered results); output
URLs are pairwise distinct; every URL of the input appears exactly
once; and the kept element for each URL is the first occurrence of
that URL in source-priority order. -/
theorem merge_dedup_first_occurrence (l : List ImageResult) :
    (unique_by_url l).Sublist l
    ∧ ((unique_by_url l).map (fun r => r.url)).Nodup
    ∧ (∀ u, u ∈ l.map (fun r => r.url) →
        ((unique_by_url l).map (fun r => r.url)).count u = 1)
    ∧ (∀ u, (unique_by_url l).find? (fun r => r.url == u) =
        l.find? (fun r => r.url == u)) := by
  refine ⟨dedup_by_aux_sublist _ [] l, dedup_by_aux_nodup _ [] l, ?_, ?_⟩
  · intro u hmem
    exact List.count_eq_one_of_mem (dedup_by_aux_nodup _ [] l)
      (dedup_by_aux_mem _ [] l u (by simp) hmem)
  · intro u
    exact dedup_by_aux_find _ [] l u (by simp)

theorem merge_dedup_witness :
    ((unique_by_url
      [{ url := "u1", source := "google", quality_score := 0 },
       { url := "u2", source := "google", quality_score := 0 },
       { url := "u1", source := "bing", quality_score := 0 }]).map
        (fun r => r.url)).count "u1" = 1 :=
  (merge_dedup_first_occurrence
    [{ url := "u1", source := "google", quality_score := 0 },
     { url := "u2", source := "google", quality_score := 0 },
     { url := "u1", source := "bing", quality_score := 0 }]).2.2.1 "u1" (by simp)

end ImageScraper
